import Mathlib

/-!
Shallow embedding of the quiz-session core of the IndividualTeacher frontend
(frontend/src/components/Quiz.tsx and frontend/src/App.tsx), together with
proofs of the specified properties.

JavaScript conventions are modelled as follows: array indexing `xs[i]` that can
yield `undefined` becomes `xs[i]?: Option _`; the sentinel `-1` is kept as the
integer `-1` (answer indices are `Int`); `Array.prototype.findIndex` returns an
`Int` that is `-1` when no element matches; `Math.floor(Math.random()*(i+1))`
is modelled by an arbitrary choice function `rand : Nat → Nat` reduced modulo
`i+1`, so every theorem quantifying over `rand` covers every possible run of
the random number generator.
-/

namespace IndividualTeacher

/-- Model of `AnswerOption` from frontend/src/interfaces/interfaces.ts. -/
structure AnswerOption where
  answer_text : String
  is_correct : Bool
deriving DecidableEq, Repr

/-- Model of `Question` from frontend/src/interfaces/interfaces.ts
(`type` is renamed `qtype`, as `type` is a keyword). -/
structure Question where
  id : Nat
  qtype : String
  question_text : String
  answers : List AnswerOption
deriving DecidableEq, Repr

/-- Model of `QuizData` from frontend/src/interfaces/interfaces.ts (string ids, as used
by App.tsx for UUID keys). -/
structure QuizData where
  id : String
  title : String
  questions : List Question
deriving DecidableEq, Repr

/-- Model of `DisplayAnswer` from Quiz.tsx: an `AnswerOption` decorated with the index
it had in the canonical answer list. -/
structure DisplayAnswer where
  answer_text : String
  is_correct : Bool
  originalIndex : Nat
deriving DecidableEq, Repr

/-- Model of `DisplayQuestion` from Quiz.tsx: a `Question` decorated with its canonical
position, whose answers carry their canonical positions. -/
structure DisplayQuestion where
  id : Nat
  qtype : String
  question_text : String
  originalIndex : Nat
  answers : List DisplayAnswer
deriving DecidableEq, Repr

/-- JavaScript `Array.prototype.findIndex`: first index satisfying the
predicate, `-1` if none. -/
def findIndexInt (p : α → Bool) (l : List α) : Int :=
  match l.findIdx? p with
  | some i => (i : Int)
  | none => -1

/-- The destructuring swap `[a[i], a[j]] = [a[j], a[i]]` inside
`shuffleArray` (Quiz.tsx line 13).  When either index is out of range the
match falls through and the list is unchanged (the shuffle loop never
produces that case). -/
def listSwap (l : List α) (i j : Nat) : List α :=
  match l[i]?, l[j]? with
  | some a, some b => (l.set i b).set j a
  | _, _ => l

/-- The loop of `shuffleArray` (Quiz.tsx lines 11-14): index `i` runs from
`length - 1` down to `1`, swapping position `i` with a random position
`j ∈ [0, i]`.  `rand i % (i+1)` models `Math.floor(Math.random()*(i+1))`. -/
def fisherYatesAux (rand : Nat → Nat) : Nat → List α → List α
  | 0, l => l
  | i+1, l => fisherYatesAux rand i (listSwap l (i+1) (rand (i+1) % (i+1+1)))

/-- Model of `shuffleArray` from Quiz.tsx lines 8-16 (the copy `[...array]` makes the
function pure, which the embedding reflects by construction). -/
def shuffleArray (rand : Nat → Nat) (l : List α) : List α :=
  fisherYatesAux rand (l.length - 1) l

theorem count_set_add [DecidableEq α] (l : List α) (i : Nat) (b x : α)
    (h : i < l.length) :
    (l.set i b).count x + (if l[i] = x then 1 else 0)
      = l.count x + (if b = x then 1 else 0) := by
  induction l generalizing i with
  | nil => simp at h
  | cons hd tl ih =>
    cases i with
    | zero =>
      simp only [List.set_cons_zero, List.count_cons, List.getElem_cons_zero,
        beq_iff_eq]
      split_ifs <;> simp_all
    | succ n =>
      have hn : n < tl.length := by simpa using h
      have := ih n hn
      simp only [List.set_cons_succ, List.count_cons, List.getElem_cons_succ,
        beq_iff_eq]
      split_ifs <;> simp_all

theorem listSwap_perm [DecidableEq α] (l : List α) (i j : Nat) :
    (listSwap l i j).Perm l := by
  cases hi : l[i]? with
  | none => simp [listSwap, hi]
  | some a =>
    cases hj : l[j]? with
    | none => simp [listSwap, hi, hj]
    | some b =>
      have hswap : listSwap l i j = (l.set i b).set j a := by
        simp [listSwap, hi, hj]
      rw [hswap]
      have hil : i < l.length := (List.getElem?_eq_some_iff.mp hi).1
      have hjl : j < l.length := (List.getElem?_eq_some_iff.mp hj).1
      have hia : l[i] = a := (List.getElem?_eq_some_iff.mp hi).2
      have hjb : l[j] = b := (List.getElem?_eq_some_iff.mp hj).2
      have hjl2 : j < (l.set i b).length := by simpa using hjl
      have hmid : (l.set i b)[j] = b := by
        rcases eq_or_ne i j with hij | hij
        · subst hij
          simp [List.getElem_set_self]
        · rw [List.getElem_set_ne hij]
          exact hjb
      refine List.perm_iff_count.mpr fun x => ?_
      have h1 := count_set_add (l.set i b) j a x hjl2
      have h2 := count_set_add l i b x hil
      rw [hmid] at h1
      rw [hia] at h2
      split_ifs at h1 h2 <;> omega

theorem fisherYatesAux_perm [DecidableEq α] (rand : Nat → Nat) :
    ∀ (i : Nat) (l : List α), (fisherYatesAux rand i l).Perm l := by
  intro i
  induction i with
  | zero => intro l; exact List.Perm.refl l
  | succ n ih =>
    intro l
    have h1 := ih (listSwap l (n+1) (rand (n+1) % (n+1+1)))
    exact h1.trans (listSwap_perm l (n+1) (rand (n+1) % (n+1+1)))

theorem shuffleArray_perm [DecidableEq α] (rand : Nat → Nat) (l : List α) :
    (shuffleArray rand l).Perm l :=
  fisherYatesAux_perm rand (l.length - 1) l

/-- The answer decoration inside `setupDisplayQuestions` (Quiz.tsx lines
77-80): `{...a, originalIndex: ansIndex}`. -/
def decorateAnswer (ansIndex : Nat) (a : AnswerOption) : DisplayAnswer :=
  { answer_text := a.answer_text, is_correct := a.is_correct,
    originalIndex := ansIndex }

/-- The per-question body of `setupDisplayQuestions` (Quiz.tsx lines 75-86):
spread the question, record its canonical index, decorate its answers. -/
def processQuestion (index : Nat) (q : Question) : DisplayQuestion :=
  { id := q.id, qtype := q.qtype, question_text := q.question_text,
    originalIndex := index,
    answers := q.answers.enum.map (fun p => decorateAnswer p.1 p.2) }

/-- Model of `setupDisplayQuestions` from Quiz.tsx lines 74-89: decorate every question
with its canonical index (`questions.map((q, index) => ...)` is an indexed
map, modelled via `List.enum`), then shuffle the list when the
shuffle-questions flag is on. -/
def setupDisplayQuestions (rand : Nat → Nat) (questions : List Question)
    (shuffleQuestions : Bool) : List DisplayQuestion :=
  let processedQuestions := questions.enum.map (fun p => processQuestion p.1 p.2)
  if shuffleQuestions then shuffleArray rand processedQuestions
  else processedQuestions

/-- Model of `currentDisplayAnswers` from Quiz.tsx lines 109-115: the answers of the
current display question, freshly shuffled when the shuffle-answers flag is
on; `[]` when there is no current question. -/
def currentDisplayAnswers (rand : Nat → Nat) (q? : Option DisplayQuestion)
    (shuffleAnswers : Bool) : List DisplayAnswer :=
  match q? with
  | none => []
  | some q => if shuffleAnswers then shuffleArray rand q.answers else q.answers

theorem processQuestion_answers_map (i : Nat) (q : Question) :
    (processQuestion i q).answers.map (fun a => a.originalIndex)
      = List.range q.answers.length := by
  simp only [processQuestion, List.map_map]
  have h1 : (q.answers.enum.map
        ((fun a => a.originalIndex) ∘ fun p => decorateAnswer p.1 p.2))
      = q.answers.enum.map (fun p => p.1) :=
    List.map_congr_left (fun p _ => rfl)
  rw [h1]
  simp [List.enum_eq_enumFrom, List.range_eq_range', List.enumFrom_map_fst]

theorem processQuestion_answers_length (i : Nat) (q : Question) :
    (processQuestion i q).answers.length = q.answers.length := by
  simp [processQuestion]

theorem setupDisplayQuestions_perm (rand : Nat → Nat) (questions : List Question)
    (sq : Bool) :
    (setupDisplayQuestions rand questions sq).Perm
      (questions.enum.map (fun p => processQuestion p.1 p.2)) := by
  unfold setupDisplayQuestions
  cases sq with
  | false => simp
  | true => simpa using shuffleArray_perm rand _

theorem processed_map_originalIndex (questions : List Question) :
    ((questions.enum.map (fun p => processQuestion p.1 p.2)).map
        (fun dq => dq.originalIndex))
      = List.range questions.length := by
  rw [List.map_map]
  have h1 : (questions.enum.map
        ((fun dq => dq.originalIndex) ∘ fun p => processQuestion p.1 p.2))
      = questions.enum.map (fun p => p.1) :=
    List.map_congr_left (fun p _ => rfl)
  rw [h1]
  simp [List.enum_eq_enumFrom, List.range_eq_range', List.enumFrom_map_fst]

/-- C2: for every canonical question list and every combination of the two
shuffle flags, the display projection has the same length as the input, the
multiset of question `originalIndex` values is exactly `{0..n-1}` (a
permutation of canonical indices), every display question carries its answers
decorated with the canonical answer indices `{0..m-1}`, and the displayed
answer ordering is always a permutation of those indices.  The canonical
input is never mutated: `shuffleArray` copies its input and the embedding is
pure by construction. -/
theorem setupDisplayQuestions_bijection (rand : Nat → Nat)
    (questions : List Question) (sq sa : Bool) :
    (setupDisplayQuestions rand questions sq).length = questions.length ∧
    ((setupDisplayQuestions rand questions sq).map
        (fun dq => dq.originalIndex)).Perm (List.range questions.length) ∧
    ∀ dq ∈ setupDisplayQuestions rand questions sq,
      dq.answers.map (fun a => a.originalIndex)
          = List.range dq.answers.length ∧
      ∀ rand2 : Nat → Nat,
        ((currentDisplayAnswers rand2 (some dq) sa).map
            (fun a => a.originalIndex)).Perm
          (List.range dq.answers.length) := by
  have hperm := setupDisplayQuestions_perm rand questions sq
  refine ⟨?_, ?_, ?_⟩
  · rw [hperm.length_eq]
    simp
  · exact (hperm.map (fun dq => dq.originalIndex)).trans
      (by rw [processed_map_originalIndex])
  · intro dq hdq
    have hmem : dq ∈ questions.enum.map (fun p => processQuestion p.1 p.2) :=
      hperm.mem_iff.mp hdq
    obtain ⟨p, _, hp⟩ := List.mem_map.mp hmem
    have hans : dq.answers.map (fun a => a.originalIndex)
        = List.range dq.answers.length := by
      rw [← hp, processQuestion_answers_length]
      exact processQuestion_answers_map p.1 p.2
    refine ⟨hans, fun rand2 => ?_⟩
    unfold currentDisplayAnswers
    cases sa with
    | false => simpa using hans.symm ▸ List.Perm.refl _
    | true =>
      have hs := shuffleArray_perm rand2 dq.answers
      have := hs.map (fun a => a.originalIndex)
      simpa [hans] using this

/-- Model of `question.answers.findIndex(a => a.is_correct)` (Quiz.tsx line 178):
`-1` when no answer is flagged correct. -/
def correctAnswerOriginalIndex (q : Question) : Int :=
  findIndexInt (fun a => a.is_correct) q.answers

/-- The body of the `forEach` in `handleFinish` (Quiz.tsx lines 177-184):
1 when the guard
`correct !== -1 && userAnswer !== -1 && userAnswer === correct` passes,
0 otherwise.  `none` models the `undefined` read `userAnswers[originalIndex]`
when the answer array is shorter than the question list (`undefined === c`
is false in JavaScript). -/
def questionContribution (ua? : Option Int) (q : Question) : Nat :=
  match ua? with
  | none => 0
  | some ua =>
    if correctAnswerOriginalIndex q ≠ -1 ∧ ua ≠ -1
        ∧ ua = correctAnswerOriginalIndex q
    then 1 else 0

/-- The accumulating loop of `handleFinish`, iterating the canonical
question list from original index `i` upward. -/
def handleFinishScoreFrom (userAnswers : List Int) : Nat → List Question → Nat
  | _, [] => 0
  | i, q :: rest =>
      questionContribution userAnswers[i]? q
        + handleFinishScoreFrom userAnswers (i+1) rest

/-- The `calculatedScore` computed by `handleFinish` (Quiz.tsx lines
175-184) over the original, unshuffled `questions` prop. -/
def handleFinishScore (questions : List Question) (userAnswers : List Int) :
    Nat :=
  handleFinishScoreFrom userAnswers 0 questions

/-- The session state lifted into App.tsx that `handleFinish` writes through
`setScore` / `setQuizFinished` / `setCurrentDisplayIndex`. -/
structure SessionState where
  displayIndex : Int
  finished : Bool
  score : Nat
deriving DecidableEq, Repr

/-- Model of `handleFinish` from Quiz.tsx lines 174-188: computes the score from the
canonical questions and persisted answers only (the previous session state,
the shuffle flags and the display order are not read), then sets
`finished = true` and `displayIndex = 0`. -/
def handleFinish (questions : List Question) (userAnswers : List Int)
    (_s : SessionState) : SessionState :=
  { displayIndex := 0, finished := true,
    score := handleFinishScore questions userAnswers }

/-- Spec-worded per-question match (refinement target for C1), following the
spec: the stored answer equals that question's canonical correct-answer
index, and the unanswered sentinel `-1` never matches. -/
def specMatchPair (ua? : Option Int) (q : Question) : Bool :=
  match ua? with
  | none => false
  | some ua => decide (ua ≠ -1 ∧ ua = correctAnswerOriginalIndex q)

/-- Spec-worded score (refinement target for C1): the number of original
question indices at which the stored answer matches. -/
def specScore (questions : List Question) (userAnswers : List Int) : Nat :=
  ((List.range questions.length).filter (fun i =>
      match questions[i]? with
      | some q => specMatchPair userAnswers[i]? q
      | none => false)).length

theorem questionContribution_eq (ua? : Option Int) (q : Question) :
    questionContribution ua? q = if specMatchPair ua? q then 1 else 0 := by
  cases ua? with
  | none => rfl
  | some ua =>
    simp only [questionContribution, specMatchPair]
    by_cases h1 : ua = -1
    · subst h1; simp
    · by_cases h2 : ua = correctAnswerOriginalIndex q
      · subst h2; simp [h1]
      · simp [h1, h2]

theorem handleFinishScoreFrom_eq (userAnswers : List Int) :
    ∀ (questions : List Question) (i : Nat),
      handleFinishScoreFrom userAnswers i questions
        = (List.range questions.length).countP (fun k =>
            match questions[k]? with
            | some q => specMatchPair userAnswers[i + k]? q
            | none => false) := by
  intro qs
  induction qs with
  | nil => intro i; simp [handleFinishScoreFrom]
  | cons q rest ih =>
    intro i
    simp only [handleFinishScoreFrom, List.length_cons,
      List.range_succ_eq_map, List.countP_cons, List.countP_map]
    have htail : (List.range rest.length).countP
          ((fun k =>
            match (q :: rest)[k]? with
            | some q2 => specMatchPair userAnswers[i + k]? q2
            | none => false) ∘ Nat.succ)
        = (List.range rest.length).countP (fun k =>
            match rest[k]? with
            | some q2 => specMatchPair userAnswers[(i+1) + k]? q2
            | none => false) := by
      refine List.countP_congr fun k _ => ?_
      have harith : i + (k + 1) = (i + 1) + k := by omega
      simp [Function.comp, harith]
    rw [htail, ← ih (i+1)]
    have hhead : (match (q :: rest)[0]? with
        | some q2 => specMatchPair userAnswers[i + 0]? q2
        | none => false) = specMatchPair userAnswers[i]? q := by
      simp
    rw [hhead, questionContribution_eq]
    split_ifs <;> omega

theorem handleFinishScore_eq_specScore (questions : List Question)
    (userAnswers : List Int) :
    handleFinishScore questions userAnswers = specScore questions userAnswers := by
  rw [handleFinishScore, handleFinishScoreFrom_eq, specScore,
    ← List.countP_eq_length_filter]
  exact List.countP_congr fun k _ => by simp

/-- C1: for every canonical question list and answer entry of matching
length, `handleFinish` computes the score as the number of original indices
at which the stored answer equals the canonical correct-answer index (the
sentinel `-1` never matching), iterating in canonical order only; it sets
`finished = true` and `displayIndex = 0`, and its result does not depend on
the previous session state (hence not on the shuffle flags nor on the
current `displayIndex`, which it never reads). -/
theorem handleFinish_spec (questions : List Question) (userAnswers : List Int)
    (s : SessionState) (_h : userAnswers.length = questions.length) :
    (handleFinish questions userAnswers s).score
        = specScore questions userAnswers ∧
    (handleFinish questions userAnswers s).finished = true ∧
    (handleFinish questions userAnswers s).displayIndex = 0 ∧
    ∀ s2 : SessionState,
      handleFinish questions userAnswers s2 = handleFinish questions userAnswers s := by
  refine ⟨?_, rfl, rfl, fun s2 => rfl⟩
  exact handleFinishScore_eq_specScore questions userAnswers

/-- Witness for C1 (spec Scenario A): canonical correct indices `[2, 0, 1]`,
user answers `[0, -1, 1]`, score 1. -/
theorem handleFinish_spec_witness :
    ([(0 : Int), -1, 1].length
        = ([{ id := 0, qtype := "multiple_choice", question_text := "q1",
              answers := [⟨"a", false⟩, ⟨"b", false⟩, ⟨"c", true⟩] },
            { id := 1, qtype := "multiple_choice", question_text := "q2",
              answers := [⟨"a", true⟩, ⟨"b", false⟩, ⟨"c", false⟩] },
            { id := 2, qtype := "multiple_choice", question_text := "q3",
              answers := [⟨"a", false⟩, ⟨"b", true⟩, ⟨"c", false⟩] }] :
            List Question).length)
    ∧ (handleFinish
        [{ id := 0, qtype := "multiple_choice", question_text := "q1",
           answers := [⟨"a", false⟩, ⟨"b", false⟩, ⟨"c", true⟩] },
         { id := 1, qtype := "multiple_choice", question_text := "q2",
           answers := [⟨"a", true⟩, ⟨"b", false⟩, ⟨"c", false⟩] },
         { id := 2, qtype := "multiple_choice", question_text := "q3",
           answers := [⟨"a", false⟩, ⟨"b", true⟩, ⟨"c", false⟩] }]
        [(0 : Int), -1, 1] { displayIndex := 2, finished := false, score := 0 }).score
      = specScore
        [{ id := 0, qtype := "multiple_choice", question_text := "q1",
           answers := [⟨"a", false⟩, ⟨"b", false⟩, ⟨"c", true⟩] },
         { id := 1, qtype := "multiple_choice", question_text := "q2",
           answers := [⟨"a", true⟩, ⟨"b", false⟩, ⟨"c", false⟩] },
         { id := 2, qtype := "multiple_choice", question_text := "q3",
           answers := [⟨"a", false⟩, ⟨"b", true⟩, ⟨"c", false⟩] }]
        [(0 : Int), -1, 1] :=
  ⟨by decide, (handleFinish_spec _ _ _ (by decide)).1⟩

/-- C9: a question none of whose answers is flagged correct has canonical
correct-answer index `-1`, and it never contributes to the Finish score —
in particular not when the stored answer is the unanswered sentinel `-1`,
because the guard `correct !== -1` blocks the accidental `-1 === -1`
match. -/
theorem noCorrectAnswer_no_contribution (q : Question)
    (h : ∀ a ∈ q.answers, a.is_correct = false) :
    correctAnswerOriginalIndex q = -1 ∧
    (∀ ua? : Option Int, questionContribution ua? q = 0) ∧
    questionContribution (some (-1)) q = 0 ∧
    (∀ userAnswers : List Int, handleFinishScore [q] userAnswers = 0) := by
  have hc : correctAnswerOriginalIndex q = -1 := by
    unfold correctAnswerOriginalIndex findIndexInt
    have : q.answers.findIdx? (fun a => a.is_correct) = none := by
      rw [List.findIdx?_eq_none_iff]
      intro a ha
      simp [h a ha]
    rw [this]
  have hcontrib : ∀ ua? : Option Int, questionContribution ua? q = 0 := by
    intro ua?
    cases ua? with
    | none => rfl
    | some ua => simp [questionContribution, hc]
  refine ⟨hc, hcontrib, hcontrib (some (-1)), fun userAnswers => ?_⟩
  simp [handleFinishScore, handleFinishScoreFrom, hcontrib]

/-- Witness for C9: a two-answer question with no correct answer and an
unanswered user entry contributes nothing. -/
theorem noCorrectAnswer_no_contribution_witness :
    (∀ a ∈ [(⟨"a", false⟩ : AnswerOption), ⟨"b", false⟩], a.is_correct = false)
    ∧ questionContribution (some (-1))
        { id := 7, qtype := "multiple_choice", question_text := "q",
          answers := [⟨"a", false⟩, ⟨"b", false⟩] } = 0 :=
  ⟨by decide,
   (noCorrectAnswer_no_contribution
      { id := 7, qtype := "multiple_choice", question_text := "q",
        answers := [⟨"a", false⟩, ⟨"b", false⟩] } (by decide)).2.2.1⟩

/-- Effect 3 of Quiz.tsx (lines 131-150): recompute the visual selection
index from the persisted answers.  Starting from `-1`, when a current
question exists and its display-answer list is non-empty, read
`userAnswers[originalQuestionIndex]`; if that is defined and not `-1`, find
the position in the current display-answer ordering holding that
`originalIndex` (`findIndex` yields `-1` when absent). -/
def effect3SyncSelection (q? : Option DisplayQuestion)
    (displayAnswers : List DisplayAnswer) (userAnswers : List Int) : Int :=
  match q? with
  | none => -1
  | some q =>
    if 0 < displayAnswers.length then
      match userAnswers[q.originalIndex]? with
      | none => -1
      | some p =>
        if p ≠ -1 then
          findIndexInt (fun a => decide ((a.originalIndex : Int) = p))
            displayAnswers
        else -1
    else -1

/-- C3: the recomputed visual selection is the unique display position whose
`originalIndex` equals the persisted original answer index, and `-1` when the
entry is unanswered (`-1`), missing (`undefined`), or its value is not
present in the current ordering.  The display-answer ordering is arbitrary,
so after any reshuffle the indicator follows the stored original index, not
a previously selected display position. -/
theorem effect3SyncSelection_spec (q : DisplayQuestion)
    (displayAnswers : List DisplayAnswer) (userAnswers : List Int)
    (hnd : (displayAnswers.map (fun a => a.originalIndex)).Nodup) :
    (∀ (v : Int) (k : Nat) (hk : k < displayAnswers.length),
        userAnswers[q.originalIndex]? = some v → v ≠ -1 →
        ((displayAnswers.get ⟨k, hk⟩).originalIndex : Int) = v →
        effect3SyncSelection (some q) displayAnswers userAnswers = (k : Int)) ∧
    (userAnswers[q.originalIndex]? = none →
        effect3SyncSelection (some q) displayAnswers userAnswers = -1) ∧
    (userAnswers[q.originalIndex]? = some (-1) →
        effect3SyncSelection (some q) displayAnswers userAnswers = -1) ∧
    (∀ v : Int, userAnswers[q.originalIndex]? = some v →
        (∀ a ∈ displayAnswers, (a.originalIndex : Int) ≠ v) →
        effect3SyncSelection (some q) displayAnswers userAnswers = -1) := by
  refine ⟨?_, ?_, ?_, ?_⟩
  · intro v k hk hv hvne hidx
    have hlen : 0 < displayAnswers.length := Nat.lt_of_le_of_lt (Nat.zero_le k) hk
    simp only [effect3SyncSelection, hv, hlen, if_pos, hvne, ne_eq,
      not_false_iff, if_true]
    have hfind : displayAnswers.findIdx?
        (fun a => decide ((a.originalIndex : Int) = v)) = some k := by
      rw [List.findIdx?_eq_some_iff_getElem]
      refine ⟨hk, ?_, ?_⟩
      · simp only [List.get_eq_getElem] at hidx
        simp [hidx]
      · intro j hj
        simp only [decide_eq_true_eq]
        intro hja
        have hjk : j < displayAnswers.length := Nat.lt_trans hj hk
        have hj2 : (displayAnswers[j].originalIndex : Int)
            = (displayAnswers[k].originalIndex : Int) := by
          simp only [List.get_eq_getElem] at hidx
          rw [hja, hidx]
        have hnat : displayAnswers[j].originalIndex
            = displayAnswers[k].originalIndex := by exact_mod_cast hj2
        have hjm : j < (displayAnswers.map (fun a => a.originalIndex)).length := by
          simpa using hjk
        have hkm : k < (displayAnswers.map (fun a => a.originalIndex)).length := by
          simpa using hk
        have hmj : (displayAnswers.map (fun a => a.originalIndex))[j]
            = (displayAnswers.map (fun a => a.originalIndex))[k] := by
          simp only [List.getElem_map]
          exact hnat
        have := (@List.Nodup.getElem_inj_iff _ _ hnd j hjm k hkm).mp hmj
        omega
    simp [findIndexInt, hfind]
  · intro hv
    simp only [effect3SyncSelection, hv]
    split <;> rfl
  · intro hv
    simp only [effect3SyncSelection, hv]
    split <;> simp
  · intro v hv hnotmem
    simp only [effect3SyncSelection, hv]
    by_cases hlen : 0 < displayAnswers.length
    · rw [if_pos hlen]
      by_cases hvne : v = -1
      · simp [hvne]
      · rw [if_pos hvne]
        have hfind : displayAnswers.findIdx?
            (fun a => decide ((a.originalIndex : Int) = v)) = none := by
          rw [List.findIdx?_eq_none_iff]
          intro a ha
          simpa using hnotmem a ha
        simp [findIndexInt, hfind]
    · rw [if_neg hlen]

/-- Witness for C3: the stored original answer index 0 is found at display
position 1 after the answers were reshuffled. -/
theorem effect3SyncSelection_spec_witness :
    ([(⟨"b", false, 1⟩ : DisplayAnswer), ⟨"a", true, 0⟩].map
        (fun a => a.originalIndex)).Nodup
    ∧ effect3SyncSelection
        (some { id := 0, qtype := "multiple_choice", question_text := "q",
                originalIndex := 0,
                answers := [⟨"a", true, 0⟩, ⟨"b", false, 1⟩] })
        [⟨"b", false, 1⟩, ⟨"a", true, 0⟩] [(0 : Int)] = 1 :=
  ⟨by decide,
   (effect3SyncSelection_spec
      { id := 0, qtype := "multiple_choice", question_text := "q",
        originalIndex := 0, answers := [⟨"a", true, 0⟩, ⟨"b", false, 1⟩] }
      [⟨"b", false, 1⟩, ⟨"a", true, 0⟩] [(0 : Int)] (by decide)).1
     0 1 (by decide) (by decide) (by decide) (by decide)⟩

/-- The full per-quiz view state used by the navigation handlers: the Quiz
component's local state plus the session state lifted into App.tsx.  The
navigation handlers only ever call `setCurrentDisplayIndex`. -/
structure QuizViewState where
  displayQuestions : List DisplayQuestion
  displayIndex : Int
  finished : Bool
  score : Nat
  userAnswers : List Int
  selectedDisplayAnswerIndex : Int
deriving DecidableEq, Repr

/-- Model of `handleNext` from Quiz.tsx line 164. -/
def handleNext (s : QuizViewState) : QuizViewState :=
  if s.displayIndex < (s.displayQuestions.length : Int) - 1 then
    { s with displayIndex := s.displayIndex + 1 }
  else s

/-- Model of `handlePrevious` from Quiz.tsx line 165. -/
def handlePrevious (s : QuizViewState) : QuizViewState :=
  if 0 < s.displayIndex then { s with displayIndex := s.displayIndex - 1 }
  else s

/-- Model of `handleJumpToQuestion` from Quiz.tsx lines 168-172. -/
def handleJumpToQuestion (index : Int) (s : QuizViewState) : QuizViewState :=
  if 0 ≤ index ∧ index < (s.displayQuestions.length : Int) then
    { s with displayIndex := index }
  else s

/-- C4: `handlePrevious` at index 0 and `handleNext` at the last index leave
the state unchanged; `handleJumpToQuestion` with an out-of-range index
leaves the state unchanged; and all three handlers (total functions, so they
never raise) change nothing except `displayIndex`. -/
theorem navigation_spec (s : QuizViewState) :
    (s.displayIndex = 0 → handlePrevious s = s) ∧
    (s.displayIndex = (s.displayQuestions.length : Int) - 1 →
        handleNext s = s) ∧
    (∀ index : Int, index < 0 ∨ (s.displayQuestions.length : Int) ≤ index →
        handleJumpToQuestion index s = s) ∧
    ((handleNext s).displayQuestions = s.displayQuestions ∧
      (handleNext s).finished = s.finished ∧
      (handleNext s).score = s.score ∧
      (handleNext s).userAnswers = s.userAnswers ∧
      (handleNext s).selectedDisplayAnswerIndex
        = s.selectedDisplayAnswerIndex) ∧
    ((handlePrevious s).displayQuestions = s.displayQuestions ∧
      (handlePrevious s).finished = s.finished ∧
      (handlePrevious s).score = s.score ∧
      (handlePrevious s).userAnswers = s.userAnswers ∧
      (handlePrevious s).selectedDisplayAnswerIndex
        = s.selectedDisplayAnswerIndex) ∧
    (∀ index : Int,
      (handleJumpToQuestion index s).displayQuestions = s.displayQuestions ∧
      (handleJumpToQuestion index s).finished = s.finished ∧
      (handleJumpToQuestion index s).score = s.score ∧
      (handleJumpToQuestion index s).userAnswers = s.userAnswers ∧
      (handleJumpToQuestion index s).selectedDisplayAnswerIndex
        = s.selectedDisplayAnswerIndex) := by
  refine ⟨?_, ?_, ?_, ?_, ?_, ?_⟩
  · intro h
    unfold handlePrevious
    rw [if_neg (by omega)]
  · intro h
    unfold handleNext
    rw [if_neg (by omega)]
  · intro index h
    unfold handleJumpToQuestion
    rw [if_neg (by omega)]
  · unfold handleNext; split <;> simp
  · unfold handlePrevious; split <;> simp
  · intro index
    unfold handleJumpToQuestion; split <;> simp

/-- A concrete one-question display list used by concrete instances. -/
abbrev sampleDisplayQuestion : DisplayQuestion :=
  { id := 0, qtype := "t", question_text := "q",
    originalIndex := 0, answers := [⟨"a", true, 0⟩] }

/-- A concrete loaded one-question view state used by the C4 witness. -/
abbrev sampleViewState : QuizViewState :=
  { displayQuestions := [sampleDisplayQuestion],
    displayIndex := 0, finished := false, score := 0,
    userAnswers := [-1], selectedDisplayAnswerIndex := -1 }

/-- Witness for C4: a loaded one-question quiz at index 0 (which is also the
last index); previous, next and out-of-range jumps are all no-ops. -/
theorem navigation_spec_witness :
    handlePrevious sampleViewState = sampleViewState
    ∧ handleNext sampleViewState = sampleViewState
    ∧ handleJumpToQuestion (-1) sampleViewState = sampleViewState :=
  ⟨(navigation_spec sampleViewState).1 rfl,
   (navigation_spec sampleViewState).2.1 (by decide),
   (navigation_spec sampleViewState).2.2.1 (-1) (by decide)⟩

/-- Model of `AllUserAnswers` from App.tsx: quiz id → stored answer array (absent key
= `undefined`). -/
abbrev AllUserAnswers := String → Option (List Int)

/-- The object-spread update `{ ...prev, [quizId]: entry }`. -/
def updateStore (store : AllUserAnswers) (quizId : String)
    (entry : List Int) : AllUserAnswers :=
  fun k => if k = quizId then some entry else store k

/-- Model of `prev[quizId] ? [...prev[quizId]] : []` (App.tsx line 746). -/
def storedEntry (store : AllUserAnswers) (quizId : String) : List Int :=
  (store quizId).getD []

/-- Model of `handleAnswerUpdate` from App.tsx lines 744-757: write the original
answer index at the original question index, but only when that index is in
range of the existing entry; otherwise return the previous store
untouched. -/
def handleAnswerUpdate (store : AllUserAnswers) (quizId : String)
    (originalQuestionIndex originalAnswerIndex : Int) : AllUserAnswers :=
  let currentAnswersForQuiz := storedEntry store quizId
  if 0 ≤ originalQuestionIndex
      ∧ originalQuestionIndex < (currentAnswersForQuiz.length : Int) then
    updateStore store quizId
      (currentAnswersForQuiz.set originalQuestionIndex.toNat
        originalAnswerIndex)
  else store

/-- The `(quizId, originalQuestionIndex, originalAnswerIndex)` payload of
`onAnswerUpdate`. -/
structure AnswerEvent where
  quizId : String
  originalQuestionIndex : Nat
  originalAnswerIndex : Nat
deriving DecidableEq, Repr

/-- Model of `handleAnswerSelect` from Quiz.tsx lines 154-161: a no-op (previous
visual selection kept, no event emitted) in review mode or without a current
question; otherwise it updates the local visual selection and emits the
original indices resolved through the current display-answer list.  The
outer `none` models the TypeError raised when the display index is out of
range of `currentDisplayAnswers` (unreachable from the rendered list). -/
def handleAnswerSelect (quizId : String) (isReviewMode : Bool)
    (q? : Option DisplayQuestion) (displayAnswers : List DisplayAnswer)
    (selectedDisplayAnswerIndex : Int) (selectedDisplayIndex : Nat) :
    Option (Int × Option AnswerEvent) :=
  if isReviewMode then some (selectedDisplayAnswerIndex, none)
  else
    match q? with
    | none => some (selectedDisplayAnswerIndex, none)
    | some q =>
      match displayAnswers[selectedDisplayIndex]? with
      | some a =>
          some ((selectedDisplayIndex : Int),
            some ⟨quizId, q.originalIndex, a.originalIndex⟩)
      | none => none

/-- C5: `handleAnswerSelect` is a no-op — the visual selection is unchanged
and no persistence event is emitted — in review mode or when no current
display question exists; otherwise it resolves the display answer index to
that answer's `originalIndex` and emits
`(quizId, question.originalIndex, answer.originalIndex)`, and applying the
emitted event through `handleAnswerUpdate` writes exactly that one cell of
that quiz's entry. -/
theorem handleAnswerSelect_spec (quizId : String) (isReviewMode : Bool)
    (q? : Option DisplayQuestion) (displayAnswers : List DisplayAnswer)
    (oldSel : Int) (selIdx : Nat) :
    (isReviewMode = true →
        handleAnswerSelect quizId isReviewMode q? displayAnswers oldSel selIdx
          = some (oldSel, none)) ∧
    (q? = none →
        handleAnswerSelect quizId isReviewMode q? displayAnswers oldSel selIdx
          = some (oldSel, none)) ∧
    (∀ (q : DisplayQuestion) (a : DisplayAnswer), isReviewMode = false →
        q? = some q → displayAnswers[selIdx]? = some a →
        handleAnswerSelect quizId isReviewMode q? displayAnswers oldSel selIdx
            = some ((selIdx : Int),
                some ⟨quizId, q.originalIndex, a.originalIndex⟩) ∧
        ∀ (store : AllUserAnswers) (entry : List Int),
          store quizId = some entry → q.originalIndex < entry.length →
          handleAnswerUpdate store quizId (q.originalIndex : Int)
              (a.originalIndex : Int)
            = updateStore store quizId
                (entry.set q.originalIndex (a.originalIndex : Int))) := by
  refine ⟨?_, ?_, ?_⟩
  · intro h
    simp [handleAnswerSelect, h]
  · intro h
    subst h
    unfold handleAnswerSelect
    split <;> rfl
  · intro q a hrev hq ha
    subst hrev hq
    refine ⟨by simp [handleAnswerSelect, ha], ?_⟩
    intro store entry hstore hlt
    unfold handleAnswerUpdate
    have hentry : storedEntry store quizId = entry := by
      simp [storedEntry, hstore]
    rw [hentry]
    rw [if_pos (by constructor <;> [positivity; exact_mod_cast hlt])]
    simp

/-- Witness for C5: selecting display position 0 holding original answer 1
emits that original index, and applying it writes exactly that cell. -/
theorem handleAnswerSelect_spec_witness :
    ((false : Bool) = false)
    ∧ handleAnswerSelect "quiz1" false (some sampleDisplayQuestion)
        [⟨"b", false, 1⟩, ⟨"a", true, 0⟩] (-1) 0
      = some (0, some ⟨"quiz1", 0, 1⟩) :=
  ⟨rfl,
   ((handleAnswerSelect_spec "quiz1" false (some sampleDisplayQuestion)
        [⟨"b", false, 1⟩, ⟨"a", true, 0⟩] (-1) 0).2.2
      sampleDisplayQuestion ⟨"b", false, 1⟩ rfl rfl rfl).1⟩

/-- C10: an answer-update event whose original question index is out of
range of the target quiz's entry — negative, at least the entry's length, or
aimed at a quiz id with no entry (treated as the empty array) — leaves the
entire store unchanged: no entry of any quiz is created, resized or
modified. -/
theorem handleAnswerUpdate_out_of_range (store : AllUserAnswers)
    (quizId : String) (originalQuestionIndex originalAnswerIndex : Int) :
    (originalQuestionIndex < 0
        ∨ ((storedEntry store quizId).length : Int) ≤ originalQuestionIndex →
      handleAnswerUpdate store quizId originalQuestionIndex
          originalAnswerIndex = store) ∧
    (store quizId = none →
      handleAnswerUpdate store quizId originalQuestionIndex
          originalAnswerIndex = store) := by
  constructor
  · intro h
    unfold handleAnswerUpdate
    rw [if_neg (by omega)]
  · intro h
    unfold handleAnswerUpdate
    have hlen : (storedEntry store quizId).length = 0 := by
      simp [storedEntry, h]
    rw [if_neg (by rw [hlen]; omega)]

/-- A concrete two-quiz store used by concrete instances. -/
abbrev sampleStore : AllUserAnswers :=
  fun k => if k = "quiz1" then some [-1, 3] else
    if k = "quiz2" then some [0] else none

/-- Witness for C10: index 5 is out of range of the two-cell entry of
"quiz1", and "quiz3" has no entry; both updates leave the store intact. -/
theorem handleAnswerUpdate_out_of_range_witness :
    handleAnswerUpdate sampleStore "quiz1" 5 0 = sampleStore
    ∧ handleAnswerUpdate sampleStore "quiz3" 0 0 = sampleStore :=
  ⟨(handleAnswerUpdate_out_of_range sampleStore "quiz1" 5 0).1
      (by right; decide),
   (handleAnswerUpdate_out_of_range sampleStore "quiz3" 0 0).2 (by decide)⟩

/-- Model of `initializeAnswersForQuiz` from App.tsx lines 106-114 (conditional
variant): reinitialize the entry to all-`-1` only when it is missing or its
length differs from the new canonical question count. -/
def initializeAnswersForQuiz (store : AllUserAnswers) (quizId : String)
    (questions : List Question) : AllUserAnswers :=
  match store quizId with
  | none => updateStore store quizId (List.replicate questions.length (-1))
  | some entry =>
    if entry.length ≠ questions.length then
      updateStore store quizId (List.replicate questions.length (-1))
    else store

/-- The unconditional `initializeAnswersForQuiz` of the later App.tsx
iterations (lines 621-627 and 1039-1046): always fill with `-1`.  Its call
sites guard it with the same missing-or-length-mismatch test. -/
def initializeAnswersForQuizUncond (store : AllUserAnswers) (quizId : String)
    (questions : List Question) : AllUserAnswers :=
  updateStore store quizId (List.replicate questions.length (-1))

/-- Model of `handleSelectQuiz` from App.tsx lines 723-741: when a different quiz is
selected, reset the session state and initialize that quiz's answer entry
only when it is missing or of mismatched length; selecting the already
current quiz does nothing. -/
def handleSelectQuiz (quizzes : List QuizData) (currentQuizId : Option String)
    (store : AllUserAnswers) (sess : SessionState) (id : String) :
    Option String × AllUserAnswers × SessionState :=
  if some id ≠ currentQuizId then
    match quizzes.find? (fun qz => qz.id == id) with
    | some newlySelectedQuiz =>
      (match store id with
       | none =>
          (some id,
           initializeAnswersForQuizUncond store id newlySelectedQuiz.questions,
           { displayIndex := 0, finished := false, score := 0 })
       | some entry =>
          if entry.length ≠ newlySelectedQuiz.questions.length then
            (some id,
             initializeAnswersForQuizUncond store id
               newlySelectedQuiz.questions,
             { displayIndex := 0, finished := false, score := 0 })
          else
            (some id, store,
             { displayIndex := 0, finished := false, score := 0 }))
    | none =>
        (some id, store, { displayIndex := 0, finished := false, score := 0 })
  else (currentQuizId, store, sess)

theorem handleSelectQuiz_other_key (quizzes : List QuizData)
    (currentQuizId : Option String) (store : AllUserAnswers)
    (sess : SessionState) (id k : String) (hk : k ≠ id) :
    (handleSelectQuiz quizzes currentQuizId store sess id).2.1 k = store k := by
  unfold handleSelectQuiz
  split
  · split
    · split
      · simp [initializeAnswersForQuizUncond, updateStore, hk]
      · split
        · simp [initializeAnswersForQuizUncond, updateStore, hk]
        · rfl
    · rfl
  · rfl

theorem handleSelectQuiz_matching_entry (quizzes : List QuizData)
    (currentQuizId : Option String) (store : AllUserAnswers)
    (sess : SessionState) (id : String) (qz : QuizData) (entry : List Int)
    (hfind : quizzes.find? (fun q2 => q2.id == id) = some qz)
    (hentry : store id = some entry)
    (hlen : entry.length = qz.questions.length) :
    (handleSelectQuiz quizzes currentQuizId store sess id).2.1 = store := by
  unfold handleSelectQuiz
  split
  · rw [hfind]
    simp only [hentry]
    rw [if_neg (by simp [hlen])]
  · rfl

/-- C6: loading or selecting a quiz reinitializes that quiz's entry to
all-`-1` (of the new canonical length) exactly when the entry is missing or
of mismatched length; a matching-length entry is preserved unchanged (the
whole store is returned as-is), the length invariant holds after every
initialization, other quizzes' entries are never touched, and selecting a
different quiz and then returning leaves the first quiz's answers intact. -/
theorem initializeAnswersForQuiz_spec (store : AllUserAnswers)
    (quizId : String) (questions : List Question) :
    (store quizId = none →
        initializeAnswersForQuiz store quizId questions quizId
          = some (List.replicate questions.length (-1))) ∧
    (∀ entry : List Int, store quizId = some entry →
        entry.length ≠ questions.length →
        initializeAnswersForQuiz store quizId questions quizId
          = some (List.replicate questions.length (-1))) ∧
    (∀ entry : List Int, store quizId = some entry →
        entry.length = questions.length →
        initializeAnswersForQuiz store quizId questions = store) ∧
    (∃ entry : List Int,
        initializeAnswersForQuiz store quizId questions quizId = some entry
        ∧ entry.length = questions.length) ∧
    (∀ k, k ≠ quizId →
        initializeAnswersForQuiz store quizId questions k = store k) ∧
    (∀ (quizzes : List QuizData) (qzA : QuizData) (idB : String)
        (sess sess2 : SessionState) (entryA : List Int),
      quizzes.find? (fun q2 => q2.id == qzA.id) = some qzA →
      store qzA.id = some entryA →
      entryA.length = qzA.questions.length →
      qzA.id ≠ idB →
      (handleSelectQuiz quizzes
          (handleSelectQuiz quizzes (some qzA.id) store sess idB).1
          (handleSelectQuiz quizzes (some qzA.id) store sess idB).2.1
          sess2 qzA.id).2.1 qzA.id
        = some entryA) := by
  refine ⟨?_, ?_, ?_, ?_, ?_, ?_⟩
  · intro h
    simp [initializeAnswersForQuiz, h, updateStore]
  · intro entry h hne
    simp [initializeAnswersForQuiz, h, hne, updateStore]
  · intro entry h hlen
    simp [initializeAnswersForQuiz, h, hlen]
  · cases h : store quizId with
    | none =>
      refine ⟨List.replicate questions.length (-1), ?_, by simp⟩
      simp [initializeAnswersForQuiz, h, updateStore]
    | some entry =>
      by_cases hlen : entry.length = questions.length
      · exact ⟨entry, by simp [initializeAnswersForQuiz, h, hlen], hlen⟩
      · refine ⟨List.replicate questions.length (-1), ?_, by simp⟩
        simp [initializeAnswersForQuiz, h, hlen, updateStore]
  · intro k hk
    cases h : store quizId with
    | none => simp [initializeAnswersForQuiz, h, updateStore, hk]
    | some entry =>
      by_cases hlen : entry.length = questions.length
      · simp [initializeAnswersForQuiz, h, hlen]
      · simp [initializeAnswersForQuiz, h, hlen, updateStore, hk]
  · intro quizzes qzA idB sess sess2 entryA hfind hentry hlen hne
    have hstore1 : (handleSelectQuiz quizzes (some qzA.id) store sess idB).2.1
        qzA.id = some entryA := by
      rw [handleSelectQuiz_other_key quizzes (some qzA.id) store sess idB
        qzA.id hne]
      exact hentry
    rw [handleSelectQuiz_matching_entry quizzes
      (handleSelectQuiz quizzes (some qzA.id) store sess idB).1
      (handleSelectQuiz quizzes (some qzA.id) store sess idB).2.1
      sess2 qzA.id qzA entryA hfind hstore1 hlen]
    exact hstore1

/-- A concrete quiz record used by concrete instances. -/
abbrev sampleQuiz : QuizData :=
  { id := "quiz1", title := "t1",
    questions := [{ id := 0, qtype := "multiple_choice",
                    question_text := "q", answers := [⟨"a", true⟩] },
                  { id := 1, qtype := "multiple_choice",
                    question_text := "r", answers := [⟨"b", true⟩] }] }

/-- A second concrete quiz record used by concrete instances. -/
abbrev sampleQuiz2 : QuizData :=
  { id := "quiz2", title := "t2",
    questions := [{ id := 2, qtype := "multiple_choice",
                    question_text := "s", answers := [⟨"c", true⟩] }] }

/-- Witness for C6: "quiz1" has a matching-length entry in `sampleStore`,
so initialization preserves the store, and selecting "quiz2" then returning
to "quiz1" leaves its answers `[-1, 3]` intact. -/
theorem initializeAnswersForQuiz_spec_witness :
    initializeAnswersForQuiz sampleStore "quiz1" sampleQuiz.questions
        = sampleStore
    ∧ (handleSelectQuiz [sampleQuiz, sampleQuiz2]
        (handleSelectQuiz [sampleQuiz, sampleQuiz2] (some "quiz1")
          sampleStore ⟨0, false, 0⟩ "quiz2").1
        (handleSelectQuiz [sampleQuiz, sampleQuiz2] (some "quiz1")
          sampleStore ⟨0, false, 0⟩ "quiz2").2.1
        ⟨0, false, 0⟩ "quiz1").2.1 "quiz1" = some [-1, 3] :=
  ⟨(initializeAnswersForQuiz_spec sampleStore "quiz1" sampleQuiz.questions).2.2.1
      [-1, 3] (by decide) (by decide),
   (initializeAnswersForQuiz_spec sampleStore "quiz1"
      sampleQuiz.questions).2.2.2.2.2 [sampleQuiz, sampleQuiz2] sampleQuiz
      "quiz2" ⟨0, false, 0⟩ ⟨0, false, 0⟩ [-1, 3] (by decide) (by decide)
      (by decide) (by decide)⟩

/-- Model of `handleResetQuizAnswers` from App.tsx lines 760-771: when the quiz is
known, reset its answer entry to all-`-1` (unconditional initialization) and
reset the lifted session state. -/
def handleResetQuizAnswers (quizzes : List QuizData) (store : AllUserAnswers)
    (sess : SessionState) (quizId : String) :
    AllUserAnswers × SessionState :=
  match quizzes.find? (fun qz => qz.id == quizId) with
  | some quizToReset =>
    (initializeAnswersForQuizUncond store quizId quizToReset.questions,
     { displayIndex := 0, finished := false, score := 0 })
  | none => (store, sess)

/-- Model of `handleEndReviewClick` from Quiz.tsx lines 190-193: call App's reset,
then bump `resetCounter`, which re-runs Effect 1 and therefore re-executes
`setupDisplayQuestions` with fresh randomness (`freshRand`). -/
def handleEndReviewClick (quizzes : List QuizData) (store : AllUserAnswers)
    (sess : SessionState) (questions : List Question)
    (shuffleQuestions : Bool) (freshRand : Nat → Nat) (quizId : String) :
    AllUserAnswers × SessionState × List DisplayQuestion :=
  ((handleResetQuizAnswers quizzes store sess quizId).1,
   (handleResetQuizAnswers quizzes store sess quizId).2,
   setupDisplayQuestions freshRand questions shuffleQuestions)

/-- Finish followed by End-Review-and-Reset on the quiz `qz`, as composed by
the UI (Quiz.tsx lines 174-193 driving App.tsx lines 760-771). -/
def finishThenReset (quizzes : List QuizData) (qz : QuizData)
    (store : AllUserAnswers) (sess : SessionState) (shuffleQuestions : Bool)
    (freshRand : Nat → Nat) :
    AllUserAnswers × SessionState × List DisplayQuestion :=
  handleEndReviewClick quizzes store
    (handleFinish qz.questions (storedEntry store qz.id) sess)
    qz.questions shuffleQuestions freshRand qz.id

/-- C7: after Finish then Reset on a known quiz, its answer entry is
all-`-1` with length equal to the canonical question count, the session is
back to `finished = false`, `score = 0`, `displayIndex = 0`, other quizzes'
entries are untouched, and the display projection is recomputed by a fresh
run of `setupDisplayQuestions` with fresh randomness rather than reusing the
prior permutation. -/
theorem finishThenReset_spec (quizzes : List QuizData) (qz : QuizData)
    (store : AllUserAnswers) (sess : SessionState) (shuffleQuestions : Bool)
    (freshRand : Nat → Nat)
    (hfind : quizzes.find? (fun q2 => q2.id == qz.id) = some qz) :
    (finishThenReset quizzes qz store sess shuffleQuestions freshRand).1 qz.id
        = some (List.replicate qz.questions.length (-1)) ∧
    (finishThenReset quizzes qz store sess shuffleQuestions
        freshRand).2.1.finished = false ∧
    (finishThenReset quizzes qz store sess shuffleQuestions
        freshRand).2.1.score = 0 ∧
    (finishThenReset quizzes qz store sess shuffleQuestions
        freshRand).2.1.displayIndex = 0 ∧
    (finishThenReset quizzes qz store sess shuffleQuestions freshRand).2.2
        = setupDisplayQuestions freshRand qz.questions shuffleQuestions ∧
    (∀ k, k ≠ qz.id →
      (finishThenReset quizzes qz store sess shuffleQuestions freshRand).1 k
        = store k) := by
  unfold finishThenReset handleEndReviewClick handleResetQuizAnswers
  rw [hfind]
  refine ⟨?_, rfl, rfl, rfl, rfl, ?_⟩
  · simp [initializeAnswersForQuizUncond, updateStore]
  · intro k hk
    simp [initializeAnswersForQuizUncond, updateStore, hk]

/-- Witness for C7: finishing then resetting `sampleQuiz` clears its entry
to `[-1, -1]` and resets the session. -/
theorem finishThenReset_spec_witness :
    (finishThenReset [sampleQuiz, sampleQuiz2] sampleQuiz sampleStore
        ⟨1, true, 2⟩ true (fun _ => 0)).1 "quiz1" = some [-1, -1]
    ∧ (finishThenReset [sampleQuiz, sampleQuiz2] sampleQuiz sampleStore
        ⟨1, true, 2⟩ true (fun _ => 0)).2.1.finished = false :=
  ⟨(finishThenReset_spec [sampleQuiz, sampleQuiz2] sampleQuiz sampleStore
      ⟨1, true, 2⟩ true (fun _ => 0) (by decide)).1,
   (finishThenReset_spec [sampleQuiz, sampleQuiz2] sampleQuiz sampleStore
      ⟨1, true, 2⟩ true (fun _ => 0) (by decide)).2.1⟩

/-- Model of `getReviewClass` from Quiz.tsx lines 196-218.  `Option Int` models the
possibly-`undefined` JavaScript values: the canonical correct-answer index
read through `questions[originalQuestionIndex]?.answers.findIndex(...)` and
the persisted `userAnswers[originalQuestionIndex]`.  JavaScript `===`
comparisons between a number and a possibly-`undefined` value become `Option`
equality. -/
def getReviewClass (questions : List Question) (userAnswers : List Int)
    (q? : Option DisplayQuestion) (displayedAnswer : DisplayAnswer) : String :=
  match q? with
  | none => ""
  | some currentDisplayQuestion =>
    let originalQuestionIndex := currentDisplayQuestion.originalIndex
    let correct? : Option Int :=
      (questions[originalQuestionIndex]?).map correctAnswerOriginalIndex
    let userAnswer? : Option Int := userAnswers[originalQuestionIndex]?
    if userAnswer? = some (displayedAnswer.originalIndex : Int) then
      if userAnswer? = correct? then "list-group-item-success"
      else "list-group-item-danger"
    else if some (displayedAnswer.originalIndex : Int) = correct? then
      if userAnswer? ≠ some (-1) ∧ userAnswer? ≠ none then
        "list-group-item-info"
      else "list-group-item-secondary"
    else ""

/-- C8: the review styling of a display answer is always exactly one of the
five classes (picked-and-correct `success`, picked-and-incorrect `danger`,
correct-unpicked-while-answered `info`, correct-unpicked-while-skipped
`secondary`, or plain `""`), and it is a function only of the canonical
correct-answer index, the AnswerMap entry at the question's
`originalIndex`, and the display answer's `originalIndex` — never of the
answer's display position or of any other field. -/
theorem getReviewClass_spec (questions : List Question)
    (userAnswers : List Int) (cq : DisplayQuestion) (a : DisplayAnswer) :
    getReviewClass questions userAnswers (some cq) a
        ∈ ["list-group-item-success", "list-group-item-danger",
           "list-group-item-info", "list-group-item-secondary", ""] ∧
    (∀ a2 : DisplayAnswer, a2.originalIndex = a.originalIndex →
        getReviewClass questions userAnswers (some cq) a2
          = getReviewClass questions userAnswers (some cq) a) ∧
    (∀ (questions2 : List Question) (userAnswers2 : List Int)
        (cq2 : DisplayQuestion),
        (questions2[cq2.originalIndex]?).map correctAnswerOriginalIndex
            = (questions[cq.originalIndex]?).map correctAnswerOriginalIndex →
        userAnswers2[cq2.originalIndex]? = userAnswers[cq.originalIndex]? →
        getReviewClass questions2 userAnswers2 (some cq2) a
          = getReviewClass questions userAnswers (some cq) a) := by
  refine ⟨?_, ?_, ?_⟩
  · simp only [getReviewClass]
    split_ifs <;> simp
  · intro a2 ha2
    simp only [getReviewClass]
    rw [ha2]
  · intro questions2 userAnswers2 cq2 hcorrect huser
    simp only [getReviewClass]
    rw [hcorrect, huser]

/-- Witness for C8: with the question list of `sampleQuiz`, the user's
stored answer 0 on question 0, shown at any display slot carrying original
answer index 0, is classified `success`; the classification agrees for a
second display answer with the same original index but different text. -/
theorem getReviewClass_spec_witness :
    getReviewClass sampleQuiz.questions [0, -1]
        (some sampleDisplayQuestion) ⟨"a", true, 0⟩
        ∈ ["list-group-item-success", "list-group-item-danger",
           "list-group-item-info", "list-group-item-secondary", ""]
    ∧ getReviewClass sampleQuiz.questions [0, -1]
        (some sampleDisplayQuestion) ⟨"other text", false, 0⟩
      = getReviewClass sampleQuiz.questions [0, -1]
        (some sampleDisplayQuestion) ⟨"a", true, 0⟩ :=
  ⟨(getReviewClass_spec sampleQuiz.questions [0, -1]
      sampleDisplayQuestion ⟨"a", true, 0⟩).1,
   (getReviewClass_spec sampleQuiz.questions [0, -1]
      sampleDisplayQuestion ⟨"a", true, 0⟩).2.1 ⟨"other text", false, 0⟩ rfl⟩

/-- Witness for C2: the unshuffled projection of the two questions of
`sampleQuiz` keeps the length, contains the decorated first question, and
that question's answers carry exactly the canonical indices. -/
theorem setupDisplayQuestions_bijection_witness :
    (setupDisplayQuestions (fun _ => 0) sampleQuiz.questions false).length
        = sampleQuiz.questions.length
    ∧ processQuestion 0
          { id := 0, qtype := "multiple_choice", question_text := "q",
            answers := [⟨"a", true⟩] }
        ∈ setupDisplayQuestions (fun _ => 0) sampleQuiz.questions false
    ∧ (processQuestion 0
          { id := 0, qtype := "multiple_choice", question_text := "q",
            answers := [⟨"a", true⟩] }).answers.map
          (fun a => a.originalIndex)
      = List.range (processQuestion 0
          { id := 0, qtype := "multiple_choice", question_text := "q",
            answers := [⟨"a", true⟩] }).answers.length :=
  ⟨(setupDisplayQuestions_bijection (fun _ => 0) sampleQuiz.questions
      false false).1,
   by decide,
   ((setupDisplayQuestions_bijection (fun _ => 0) sampleQuiz.questions
      false false).2.2 _ (by decide)).1⟩

end IndividualTeacher
